import Mathlib

/-!
Shallow embedding of `download-music.py`, a command-line utility that invokes
an external media fetcher (`youtube-dl`) on the URLs listed in a song-list
file and an external audio tool (`sox`) to trim silence from the resulting
`.mp3` files in the working directory.

The script is modelled as a pure function from a parsed run configuration
(`Args`) and an environment oracle (`Env`, giving the observable answers of
the file system and the exit codes of the external tools) to a trace of
effect events (`Event`) together with an exit status.  External tools are
opaque collaborators: their invocations appear in the trace as `execTool`
events carrying the exact argument vector the script builds, and whatever
those tools do to files is out of scope, exactly as in the source.  Direct
file writes performed by the script itself appear as `writeFile` events, and
a file-system semantics `applyEvents` interprets those direct writes.
Python `exit(message)` prints the message and terminates the process with
status 1; it is modelled as a `printMsg` event followed by exit status 1.
-/

namespace DownloadMusic

/-- One observable effect of the script: a change of working directory, an
`os.path.isfile` query, the launch of an external process, a direct file
write by the script, or a line printed by the script. -/
inductive Event where
  | chdir (path : String)
  | checkIsFile (path : String)
  | execTool (prog : String) (args : List String)
  | writeFile (path : String) (content : String)
  | printMsg (msg : String)
deriving DecidableEq

/-- Environment oracle: what the file system and the external tools answer
when the script queries them.  `isfile` answers `os.path.isfile`, `dlExit`
is the exit code of the `youtube-dl` process, `files` is `os.listdir` of the
working directory, `tmpName` is the name of the `NamedTemporaryFile`, and
`soxExit1`/`soxExit2` give the exit codes of the two `sox` invocations run
for a given file. -/
structure Env where
  isfile : String → Bool
  dlExit : Nat
  files : List String
  tmpName : String
  soxExit1 : String → Nat
  soxExit2 : String → Nat

/-- Parsed run configuration, one field per `argparse` destination with the
source's defaults encoded in `defaultArgs`.  `trim` is false iff `--notrim`
was given, `download` is false iff `--nodownload` was given, `clear` is
false iff `--noclear` was given. -/
structure Args where
  song_list : String
  playlist : Bool
  force : Bool
  quiet : Bool
  wd : Bool
  trim : Bool
  download : Bool
  clear : Bool
deriving DecidableEq

/-- The directory-change events performed by `check_dir`: none when running
in the invocation directory (`--wd` given), otherwise a single change to
`~/Downloads`. -/
def chdir_events (wd : Bool) : List Event :=
  if wd then [] else [Event.chdir "~/Downloads"]

/-- `check_dir(wd, song_list, file_needed)` from the source: change to
`~/Downloads` unless `wd`, then, only when `file_needed`, query
`os.path.isfile(song_list)` and `exit` with the error message when the list
file is absent. -/
def check_dir (wd : Bool) (song_list : String) (file_needed : Bool) (env : Env) :
    List Event × Option Nat :=
  let ev0 : List Event := chdir_events wd
  if file_needed then
    if env.isfile song_list then
      (ev0 ++ [Event.checkIsFile song_list], none)
    else
      (ev0 ++ [Event.checkIsFile song_list,
        Event.printMsg ("ERROR: Could not find song list \"" ++ song_list ++ "\".")],
       some 1)
  else
    (ev0, none)

/-- The argument vector `dl_args` built for `youtube-dl` in `download`,
token for token. -/
def dl_args (song_list : String) (quiet force playlist : Bool) : List String :=
  ["--extract-audio", "--audio-format", "mp3", "--audio-quality", "0", "--geo-bypass"]
    ++ (if quiet then ["-q", "--console-title"] else [])
    ++ (if force then ["--ignore-errors"] else [])
    ++ (if playlist then ["--yes-playlist"] else ["--no-playlist"])
    ++ ["--default-search", "ytsearch", "-a", song_list, "--output", "%(title)s.%(ext)s"]

/-- `download(song_list, quiet, force, playlist)` from the source: run
`youtube-dl` with the constructed arguments and `exit` with the remedy
message when its exit code is non-zero. -/
def download (song_list : String) (quiet force playlist : Bool) (env : Env) :
    List Event × Option Nat :=
  let ev := [Event.execTool "youtube-dl" (dl_args song_list quiet force playlist)]
  if env.dlExit ≠ 0 then
    (ev ++ [Event.printMsg "ERROR: Could not download from list. Try \"sudo youtube-dl -U\"."],
     some 1)
  else
    (ev, none)

/-- Argument vector of the first `sox` sub-invocation for file `f`: original
file in, temporary file out, reverse, strip leading silence (one period,
0.1 s below 0.1 % amplitude), reverse. -/
def sox_args1 (f tmp : String) : List String :=
  [f, tmp, "reverse", "silence", "1", "0.1", "0.1%", "reverse"]

/-- Argument vector of the second `sox` sub-invocation for file `f`:
temporary file in, original file out, strip leading silence with the same
threshold. -/
def sox_args2 (f tmp : String) : List String :=
  [tmp, f, "silence", "1", "0.1", "0.1%"]

/-- One iteration of the loop body of `trim_mp3s` for a file `f` that ends
in `.mp3`: both `sox` invocations always run, then a warning is printed if
either exit code is non-zero, else a success notice unless quiet. -/
def trim_one (quiet : Bool) (tmp : String) (env : Env) (f : String) : List Event :=
  [Event.execTool "sox" (sox_args1 f tmp), Event.execTool "sox" (sox_args2 f tmp)]
    ++ (if env.soxExit1 f ≠ 0 ∨ env.soxExit2 f ≠ 0 then
          [Event.printMsg ("WARNING: Failed to trim silence from " ++ f)]
        else if quiet then []
        else [Event.printMsg ("Silence trimmed from " ++ f)])

/-- Python `str.endswith`: the character sequence of `post` is a suffix of
the character sequence of `s`. -/
def ends_with (s post : String) : Bool :=
  post.data.isSuffixOf s.data

/-- `trim_mp3s(quiet)` from the source: iterate over the directory listing,
skip names not ending in `.mp3`, and run the loop body on the rest, sharing
one temporary file name across all iterations. -/
def trim_mp3s (quiet : Bool) (env : Env) : List Event :=
  (env.files.filter (fun f => ends_with f ".mp3")).flatMap (trim_one quiet env.tmpName env)

/-- The events of the list-clearing step: open the list file for writing and
write the empty string, then print the notice unless quiet. -/
def clear_step (a : Args) : List Event :=
  [Event.writeFile a.song_list ""]
    ++ (if a.quiet then [] else [Event.printMsg "Download list cleared"])

/-- The body of the `try` block of `__main__`: `check_dir`, then, when
download is enabled, `download` followed (only on success) by the clearing
step when enabled, then `trim_mp3s` when trimming is enabled.  A `some c`
in the second component is a `SystemExit` with status `c`; it stops the
sequence, as `exit` does in the source. -/
def main_body (a : Args) (env : Env) : List Event × Option Nat :=
  match check_dir a.wd a.song_list a.download env with
  | (ev1, some c) => (ev1, some c)
  | (ev1, none) =>
    if a.download then
      match download a.song_list a.quiet a.force a.playlist env with
      | (ev2, some c) => (ev1 ++ ev2, some c)
      | (ev2, none) =>
        let ev3 := if a.clear then clear_step a else []
        let ev4 := if a.trim then trim_mp3s a.quiet env else []
        (ev1 ++ ev2 ++ ev3 ++ ev4, none)
    else
      let ev4 := if a.trim then trim_mp3s a.quiet env else []
      (ev1 ++ ev4, none)

/-- A complete uninterrupted run: the trace of the body, with exit status 0
when the body falls off the end and the `exit` status otherwise. -/
def run (a : Args) (env : Env) : List Event × Nat :=
  match main_body a env with
  | (ev, some c) => (ev, c)
  | (ev, none) => (ev, 0)

/-- A run in which a `KeyboardInterrupt` arrives after `k` events of the
body have happened: the top-level handler prints its warning and the
process falls off the end of the script, exiting with status 0. -/
def run_interrupted (a : Args) (env : Env) (k : Nat) : List Event × Nat :=
  ((main_body a env).1.take k
    ++ [Event.printMsg "\nINTERRUPTED: Terminating. Some files may not be correctly removed."],
   0)

/-- Command-line flags of the script.  `songList file` is
`--song-list file`; the rest are the boolean switches. -/
inductive Flag where
  | songList (file : String)
  | playlist
  | force
  | quiet
  | wd
  | notrim
  | nodownload
  | noclear
deriving DecidableEq

/-- Defaults of the `argparse` configuration: list file `song-list.txt`,
booleans off, `trim`, `download` and `clear` on (they are `store_false`
destinations). -/
def defaultArgs : Args :=
  { song_list := "song-list.txt", playlist := false, force := false, quiet := false,
    wd := false, trim := true, download := true, clear := true }

/-- Effect of one flag on the parsed configuration. -/
def applyFlag (a : Args) : Flag → Args
  | Flag.songList file => { a with song_list := file }
  | Flag.playlist => { a with playlist := true }
  | Flag.force => { a with force := true }
  | Flag.quiet => { a with quiet := true }
  | Flag.wd => { a with wd := true }
  | Flag.notrim => { a with trim := false }
  | Flag.nodownload => { a with download := false }
  | Flag.noclear => { a with clear := false }

/-- The `argparse` layer: `--notrim` and `--nodownload` are registered in a
mutually exclusive group, so a command line containing both is rejected
with the usual argparse diagnostic; otherwise the flags are folded over the
defaults. -/
def parse_args (flags : List Flag) : Except String Args :=
  if Flag.notrim ∈ flags ∧ Flag.nodownload ∈ flags then
    Except.error "argument --nodownload: not allowed with argument --notrim"
  else
    Except.ok (flags.foldl applyFlag defaultArgs)

/-- Interpretation of the file writes performed by the script itself: a
`writeFile` event replaces the content of the file, every other event
leaves the file map alone (effects of external tools on files are out of
scope). -/
def applyEvent (fs : String → Option String) : Event → (String → Option String)
  | Event.writeFile p c => fun q => if q = p then some c else fs q
  | _ => fs

/-- Fold `applyEvent` over a trace. -/
def applyEvents (fs : String → Option String) (evs : List Event) : String → Option String :=
  evs.foldl applyEvent fs

/-- Whether an event is the launch of an external process. -/
def Event.isExec : Event → Bool
  | Event.execTool _ _ => true
  | _ => false

/-- Whether an event is a direct write by the script to the file `p`. -/
def Event.writesTo (p : String) : Event → Bool
  | Event.writeFile q _ => q == p
  | _ => false

/-- Whether an event is an `os.path.isfile` query on the file `p`. -/
def Event.checksFile (p : String) : Event → Bool
  | Event.checkIsFile q => q == p
  | _ => false

lemma applyEvents_append (fs : String → Option String) (l1 l2 : List Event) :
    applyEvents fs (l1 ++ l2) = applyEvents (applyEvents fs l1) l2 := by
  simp [applyEvents, List.foldl_append]

lemma applyEvent_non_write (fs : String → Option String) (e : Event)
    (h : ∀ p c, e ≠ Event.writeFile p c) : applyEvent fs e = fs := by
  cases e with
  | writeFile p c => exact absurd rfl (h p c)
  | chdir p => rfl
  | checkIsFile p => rfl
  | execTool p args => rfl
  | printMsg m => rfl

lemma applyEvents_no_write (fs : String → Option String) (l : List Event) :
    (∀ e ∈ l, ∀ p c, e ≠ Event.writeFile p c) → applyEvents fs l = fs := by
  induction l generalizing fs with
  | nil => intro _; rfl
  | cons e t ih =>
    intro h
    show applyEvents (applyEvent fs e) t = fs
    rw [applyEvent_non_write fs e (h e (by simp))]
    exact ih fs (fun x hx => h x (by simp [hx]))

lemma applyEvent_at_of_ne (fs : String → Option String) (e : Event) (p : String)
    (h : ∀ c, e ≠ Event.writeFile p c) : applyEvent fs e p = fs p := by
  cases e with
  | writeFile q c =>
    have hqp : ¬ (p = q) := fun hq => h c (by rw [hq])
    show (if p = q then some c else fs p) = fs p
    rw [if_neg hqp]
  | chdir q => rfl
  | checkIsFile q => rfl
  | execTool q args => rfl
  | printMsg m => rfl

lemma applyEvents_no_write_to (fs : String → Option String) (l : List Event) (p : String) :
    (∀ e ∈ l, ∀ c, e ≠ Event.writeFile p c) → applyEvents fs l p = fs p := by
  induction l generalizing fs with
  | nil => intro _; rfl
  | cons e t ih =>
    intro h
    show applyEvents (applyEvent fs e) t p = fs p
    rw [ih (applyEvent fs e) (fun x hx => h x (by simp [hx]))]
    exact applyEvent_at_of_ne fs e p (h e (by simp))

lemma head_data_append (a u : String) (c : Char) (h : a.data.head? = some c) :
    (a ++ u).data.head? = some c := by
  rw [String.data_append]
  cases hd : a.data with
  | nil => rw [hd] at h; cases h
  | cons x xs =>
    rw [hd] at h
    simp only [List.head?_cons, Option.some.injEq] at h
    simp [h]

lemma string_ne_of_head (s t : String) (h : s.data.head? ≠ t.data.head?) : s ≠ t :=
  fun he => h (by rw [he])

lemma warning_ne_cleared (f : String) :
    "WARNING: Failed to trim silence from " ++ f ≠ "Download list cleared" := by
  apply string_ne_of_head
  rw [head_data_append "WARNING: Failed to trim silence from " f 'W' (by decide)]
  decide

lemma silence_ne_cleared (f : String) :
    "Silence trimmed from " ++ f ≠ "Download list cleared" := by
  apply string_ne_of_head
  rw [head_data_append "Silence trimmed from " f 'S' (by decide)]
  decide

lemma append_ne_append_of_head (a b u v : String) (c d : Char)
    (ha : a.data.head? = some c) (hb : b.data.head? = some d) (hcd : c ≠ d) :
    a ++ u ≠ b ++ v := by
  apply string_ne_of_head
  rw [head_data_append a u c ha, head_data_append b v d hb]
  simp [hcd]

lemma mem_trim_one (quiet : Bool) (tmp : String) (env : Env) (f : String) (e : Event)
    (he : e ∈ trim_one quiet tmp env f) :
    e = Event.execTool "sox" (sox_args1 f tmp) ∨
    e = Event.execTool "sox" (sox_args2 f tmp) ∨
    (¬(env.soxExit1 f = 0 ∧ env.soxExit2 f = 0) ∧
      e = Event.printMsg ("WARNING: Failed to trim silence from " ++ f)) ∨
    ((env.soxExit1 f = 0 ∧ env.soxExit2 f = 0) ∧ quiet = false ∧
      e = Event.printMsg ("Silence trimmed from " ++ f)) := by
  unfold trim_one at he
  rcases List.mem_append.mp he with h | h
  · rcases List.mem_cons.mp h with h | h
    · exact Or.inl h
    · exact Or.inr (Or.inl (by simpa using h))
  · by_cases hf : env.soxExit1 f ≠ 0 ∨ env.soxExit2 f ≠ 0
    · rw [if_pos hf] at h
      refine Or.inr (Or.inr (Or.inl ⟨fun hz => ?_, by simpa using h⟩))
      rcases hf with hf | hf
      · exact hf hz.1
      · exact hf hz.2
    · rw [if_neg hf] at h
      push_neg at hf
      by_cases hq : quiet = true
      · rw [if_pos hq] at h
        cases h
      · rw [if_neg hq] at h
        exact Or.inr (Or.inr (Or.inr ⟨hf, by simpa using hq, by simpa using h⟩))

lemma mem_trim_mp3s (quiet : Bool) (env : Env) (e : Event)
    (he : e ∈ trim_mp3s quiet env) :
    ∃ f, f ∈ env.files ∧ ends_with f ".mp3" = true ∧
      e ∈ trim_one quiet env.tmpName env f := by
  unfold trim_mp3s at he
  rw [List.mem_flatMap] at he
  obtain ⟨f, hf, hmem⟩ := he
  rw [List.mem_filter] at hf
  exact ⟨f, hf.1, hf.2, hmem⟩

lemma trim_shape (quiet : Bool) (env : Env) :
    ∀ e ∈ trim_mp3s quiet env,
      (∃ args, e = Event.execTool "sox" args) ∨ (∃ m, e = Event.printMsg m) := by
  intro e he
  obtain ⟨f, _, _, hmem⟩ := mem_trim_mp3s quiet env e he
  rcases mem_trim_one quiet env.tmpName env f e hmem with h | h | ⟨_, h⟩ | ⟨_, _, h⟩
  · exact Or.inl ⟨_, h⟩
  · exact Or.inl ⟨_, h⟩
  · exact Or.inr ⟨_, h⟩
  · exact Or.inr ⟨_, h⟩

lemma trim_no_write (quiet : Bool) (env : Env) :
    ∀ e ∈ trim_mp3s quiet env, ∀ p c, e ≠ Event.writeFile p c := by
  intro e he p c
  rcases trim_shape quiet env e he with ⟨args, h⟩ | ⟨m, h⟩ <;> simp [h]

lemma trim_print_msgs (quiet : Bool) (env : Env) (m : String)
    (h : Event.printMsg m ∈ trim_mp3s quiet env) :
    (∃ f, m = "WARNING: Failed to trim silence from " ++ f) ∨
    (quiet = false ∧ ∃ f, m = "Silence trimmed from " ++ f) := by
  obtain ⟨f, _, _, hmem⟩ := mem_trim_mp3s quiet env _ h
  rcases mem_trim_one quiet env.tmpName env f _ hmem with hh | hh | ⟨_, hh⟩ | ⟨_, hq, hh⟩
  · exact absurd hh (by simp)
  · exact absurd hh (by simp)
  · exact Or.inl ⟨f, by injection hh⟩
  · exact Or.inr ⟨hq, f, by injection hh⟩

lemma check_dir_skip (wd : Bool) (sl : String) (env : Env) :
    check_dir wd sl false env = (chdir_events wd, none) := rfl

lemma check_dir_missing (wd : Bool) (sl : String) (env : Env)
    (h : env.isfile sl = false) :
    check_dir wd sl true env =
      (chdir_events wd ++ [Event.checkIsFile sl,
        Event.printMsg ("ERROR: Could not find song list \"" ++ sl ++ "\".")],
       some 1) := by
  unfold check_dir
  simp [h]

lemma check_dir_found (wd : Bool) (sl : String) (env : Env)
    (h : env.isfile sl = true) :
    check_dir wd sl true env = (chdir_events wd ++ [Event.checkIsFile sl], none) := by
  unfold check_dir
  simp [h]

lemma main_body_nodl (a : Args) (env : Env) (hdl : a.download = false) :
    main_body a env =
      (chdir_events a.wd ++ (if a.trim then trim_mp3s a.quiet env else []), none) := by
  unfold main_body
  rw [hdl, check_dir_skip]
  rfl

lemma main_body_missing (a : Args) (env : Env) (hdl : a.download = true)
    (h : env.isfile a.song_list = false) :
    main_body a env =
      (chdir_events a.wd ++ [Event.checkIsFile a.song_list,
        Event.printMsg ("ERROR: Could not find song list \"" ++ a.song_list ++ "\".")],
       some 1) := by
  unfold main_body
  rw [hdl, check_dir_missing a.wd a.song_list env h]

lemma main_body_dlfail (a : Args) (env : Env) (hdl : a.download = true)
    (hex : env.isfile a.song_list = true) (hf : env.dlExit ≠ 0) :
    main_body a env =
      ((chdir_events a.wd ++ [Event.checkIsFile a.song_list]) ++
        ([Event.execTool "youtube-dl" (dl_args a.song_list a.quiet a.force a.playlist)] ++
         [Event.printMsg "ERROR: Could not download from list. Try \"sudo youtube-dl -U\"."]),
       some 1) := by
  unfold main_body
  rw [hdl, check_dir_found a.wd a.song_list env hex]
  unfold download
  simp [hf]

lemma main_body_dlok (a : Args) (env : Env) (hdl : a.download = true)
    (hex : env.isfile a.song_list = true) (hok : env.dlExit = 0) :
    main_body a env =
      ((chdir_events a.wd ++ [Event.checkIsFile a.song_list]) ++
        [Event.execTool "youtube-dl" (dl_args a.song_list a.quiet a.force a.playlist)] ++
        (if a.clear then clear_step a else []) ++
        (if a.trim then trim_mp3s a.quiet env else []), none) := by
  unfold main_body
  rw [hdl, check_dir_found a.wd a.song_list env hex]
  unfold download
  simp [hok]

lemma run_eq (a : Args) (env : Env) :
    run a env = ((main_body a env).1, (main_body a env).2.getD 0) := by
  unfold run
  rcases h : main_body a env with ⟨ev, c⟩
  cases c <;> rfl

lemma mem_chdir_events (wd : Bool) (e : Event) (h : e ∈ chdir_events wd) :
    e = Event.chdir "~/Downloads" := by
  cases wd
  · simpa [chdir_events] using h
  · simp [chdir_events] at h

lemma mem_trim_of_file (quiet : Bool) (env : Env) (f : String)
    (hf : f ∈ env.files) (hmp3 : ends_with f ".mp3" = true) (e : Event)
    (he : e ∈ trim_one quiet env.tmpName env f) : e ∈ trim_mp3s quiet env := by
  unfold trim_mp3s
  rw [List.mem_flatMap]
  exact ⟨f, List.mem_filter.mpr ⟨hf, hmp3⟩, he⟩

lemma warning_mem_trim_one (quiet : Bool) (tmp : String) (env : Env) (f : String)
    (hfail : env.soxExit1 f ≠ 0 ∨ env.soxExit2 f ≠ 0) :
    Event.printMsg ("WARNING: Failed to trim silence from " ++ f)
      ∈ trim_one quiet tmp env f := by
  unfold trim_one
  rw [if_pos hfail]
  simp

lemma notice_mem_trim_one (quiet : Bool) (tmp : String) (env : Env) (f : String)
    (h1 : env.soxExit1 f = 0) (h2 : env.soxExit2 f = 0) (hq : quiet = false) :
    Event.printMsg ("Silence trimmed from " ++ f) ∈ trim_one quiet tmp env f := by
  unfold trim_one
  rw [if_neg (by simp [h1, h2]), hq]
  simp

lemma exec_mem_trim_one (quiet : Bool) (tmp : String) (env : Env) (f : String) :
    Event.execTool "sox" (sox_args1 f tmp) ∈ trim_one quiet tmp env f ∧
    Event.execTool "sox" (sox_args2 f tmp) ∈ trim_one quiet tmp env f := by
  unfold trim_one
  constructor <;> simp

/-- No event of the list is a direct file write by the script. -/
def NoWrites (l : List Event) : Prop :=
  ∀ e ∈ l, ∀ p c, e ≠ Event.writeFile p c

lemma noWrites_append (l1 l2 : List Event) (h1 : NoWrites l1) (h2 : NoWrites l2) :
    NoWrites (l1 ++ l2) := by
  intro e he
  rcases List.mem_append.mp he with h | h
  exacts [h1 e h, h2 e h]

lemma noWrites_nil : NoWrites [] := by
  intro e he
  cases he

lemma noWrites_cons (e : Event) (l : List Event)
    (he : ∀ p c, e ≠ Event.writeFile p c) (hl : NoWrites l) : NoWrites (e :: l) := by
  intro x hx p c
  rcases List.mem_cons.mp hx with h | h
  · rw [h]; exact he p c
  · exact hl x h p c

lemma noWrites_chdir_events (wd : Bool) : NoWrites (chdir_events wd) := by
  intro e he p c
  rw [mem_chdir_events wd e he]
  simp

lemma noWrites_trim (quiet : Bool) (env : Env) : NoWrites (trim_mp3s quiet env) :=
  trim_no_write quiet env

lemma noWrites_ite (b : Bool) (l : List Event) (h : NoWrites l) :
    NoWrites (if b = true then l else []) := by
  cases b
  · simpa using noWrites_nil
  · simpa using h

lemma run_trace_no_write (a : Args) (env : Env)
    (h : a.clear = false ∨ a.download = false) :
    NoWrites (run a env).1 := by
  rw [run_eq]
  by_cases hdl : a.download = true
  · rcases h with hcl | hdl2
    · by_cases hex : env.isfile a.song_list = true
      · by_cases hok : env.dlExit = 0
        · rw [main_body_dlok a env hdl hex hok, if_neg (by simp [hcl])]
          refine noWrites_append _ _ (noWrites_append _ _ (noWrites_append _ _
            (noWrites_append _ _ (noWrites_chdir_events a.wd)
              (noWrites_cons _ _ (by simp) noWrites_nil))
            (noWrites_cons _ _ (by simp) noWrites_nil)) noWrites_nil)
            (noWrites_ite a.trim _ (noWrites_trim a.quiet env))
        · rw [main_body_dlfail a env hdl hex hok]
          exact noWrites_append _ _ (noWrites_append _ _ (noWrites_chdir_events a.wd)
            (noWrites_cons _ _ (by simp) noWrites_nil))
            (noWrites_append _ _ (noWrites_cons _ _ (by simp) noWrites_nil)
              (noWrites_cons _ _ (by simp) noWrites_nil))
      · rw [main_body_missing a env hdl (by simpa using hex)]
        exact noWrites_append _ _ (noWrites_chdir_events a.wd)
          (noWrites_cons _ _ (by simp) (noWrites_cons _ _ (by simp) noWrites_nil))
    · rw [hdl] at hdl2
      cases hdl2
  · rw [main_body_nodl a env (by simpa using hdl)]
    exact noWrites_append _ _ (noWrites_chdir_events a.wd)
      (noWrites_ite a.trim _ (noWrites_trim a.quiet env))

lemma main_body_trace_shape (a : Args) (env : Env) :
    ∃ rest, (main_body a env).1 = chdir_events a.wd ++ rest := by
  by_cases hdl : a.download = true
  · by_cases hex : env.isfile a.song_list = true
    · by_cases hok : env.dlExit = 0
      · rw [main_body_dlok a env hdl hex hok]
        refine ⟨[Event.checkIsFile a.song_list] ++
          [Event.execTool "youtube-dl" (dl_args a.song_list a.quiet a.force a.playlist)] ++
          (if a.clear = true then clear_step a else []) ++
          (if a.trim = true then trim_mp3s a.quiet env else []), ?_⟩
        simp [List.append_assoc]
      · rw [main_body_dlfail a env hdl hex hok]
        refine ⟨[Event.checkIsFile a.song_list] ++
          ([Event.execTool "youtube-dl" (dl_args a.song_list a.quiet a.force a.playlist)] ++
           [Event.printMsg "ERROR: Could not download from list. Try \"sudo youtube-dl -U\"."]), ?_⟩
        simp [List.append_assoc]
    · rw [main_body_missing a env hdl (by simpa using hex)]
      exact ⟨_, rfl⟩
  · rw [main_body_nodl a env (by simpa using hdl)]
    exact ⟨_, rfl⟩

lemma applyEvents_clear_step (a : Args) (fs : String → Option String) :
    applyEvents fs (clear_step a) a.song_list = some "" := by
  unfold clear_step
  rw [applyEvents_append]
  rw [applyEvents_no_write_to _ _ _ ?hnw]
  case hnw =>
    intro e he c
    by_cases hq : a.quiet = true
    · rw [if_pos hq] at he
      cases he
    · rw [if_neg hq] at he
      simp at he
      simp [he]
  show (if a.song_list = a.song_list then some "" else fs a.song_list) = some ""
  rw [if_pos rfl]

/-- Environment oracle in which no file exists and every external tool
succeeds. -/
def envNoFile : Env :=
  { isfile := fun _ => false, dlExit := 0, files := [], tmpName := "/tmp/tmp123.mp3",
    soxExit1 := fun _ => 0, soxExit2 := fun _ => 0 }

/-- Environment oracle in which the list file exists and the downloader
process exits with status 1. -/
def envDlFail : Env :=
  { isfile := fun _ => true, dlExit := 1, files := [], tmpName := "/tmp/tmp123.mp3",
    soxExit1 := fun _ => 0, soxExit2 := fun _ => 0 }

/-- Environment oracle with three directory entries, where the first `sox`
sub-invocation fails on `bad.mp3` and everything else succeeds. -/
def envSoxFail : Env :=
  { isfile := fun _ => true, dlExit := 0, files := ["bad.mp3", "good.mp3", "notes.txt"],
    tmpName := "/tmp/tmp123.mp3",
    soxExit1 := fun f => if f = "bad.mp3" then 1 else 0,
    soxExit2 := fun _ => 0 }

/-- C1: with `--nodownload` unset, if the list file does not exist as a
regular file at the resolved path, the run terminates with a non-zero
status after printing `ERROR: Could not find song list "<list path>".`,
launches no external tool, and performs no file write. -/
theorem C1_missing_list_aborts (a : Args) (env : Env)
    (hdl : a.download = true) (hmiss : env.isfile a.song_list = false) :
    (run a env).2 ≠ 0 ∧
    Event.printMsg ("ERROR: Could not find song list \"" ++ a.song_list ++ "\".")
      ∈ (run a env).1 ∧
    (∀ e ∈ (run a env).1, e.isExec = false) ∧
    (∀ fs, applyEvents fs (run a env).1 = fs) := by
  rw [run_eq, main_body_missing a env hdl hmiss]
  refine ⟨by simp, by simp, ?_, ?_⟩
  · intro e he
    rcases List.mem_append.mp he with h | h
    · rw [mem_chdir_events a.wd e h]
      rfl
    · simp at h
      rcases h with h | h <;> rw [h] <;> rfl
  · intro fs
    apply applyEvents_no_write
    apply noWrites_append _ _ (noWrites_chdir_events a.wd)
    exact noWrites_cons _ _ (by simp) (noWrites_cons _ _ (by simp) noWrites_nil)

/-- C1 witness: at the default configuration with the list file absent, the
run exits non-zero with exactly the message
`ERROR: Could not find song list "song-list.txt".`. -/
theorem C1_missing_list_aborts_witness :
    (run defaultArgs envNoFile).2 ≠ 0 ∧
    Event.printMsg "ERROR: Could not find song list \"song-list.txt\"."
      ∈ (run defaultArgs envNoFile).1 := by
  have h := C1_missing_list_aborts defaultArgs envNoFile rfl rfl
  exact ⟨h.1, h.2.1⟩

/-- C2: whenever the downloader is invoked (list file present, download
enabled) and its process exits non-zero, the run terminates with a non-zero
status after printing the tool-update remedy message, performs no direct
file write (so the list is not cleared) and launches no `sox` process (so
the trimmer never runs); when the downloader exits zero, `download` does
not terminate the program. -/
theorem C2_download_failure_aborts (a : Args) (env : Env)
    (hdl : a.download = true) (hex : env.isfile a.song_list = true) :
    (env.dlExit ≠ 0 →
      (run a env).2 ≠ 0 ∧
      Event.printMsg "ERROR: Could not download from list. Try \"sudo youtube-dl -U\"."
        ∈ (run a env).1 ∧
      (∀ e ∈ (run a env).1, ∀ p c, e ≠ Event.writeFile p c) ∧
      (∀ args, Event.execTool "sox" args ∉ (run a env).1)) ∧
    (env.dlExit = 0 →
      (download a.song_list a.quiet a.force a.playlist env).2 = none) := by
  constructor
  · intro hf
    rw [run_eq, main_body_dlfail a env hdl hex hf]
    refine ⟨by simp, by simp, ?_, ?_⟩
    · apply noWrites_append _ _ (noWrites_append _ _ (noWrites_chdir_events a.wd)
        (noWrites_cons _ _ (by simp) noWrites_nil))
      exact noWrites_append _ _ (noWrites_cons _ _ (by simp) noWrites_nil)
        (noWrites_cons _ _ (by simp) noWrites_nil)
    · intro args hmem
      rcases List.mem_append.mp hmem with h | h
      · rcases List.mem_append.mp h with h | h
        · have hc := mem_chdir_events a.wd _ h
          cases hc
        · simp at h
      · simp at h
  · intro hok
    unfold download
    simp [hok]

/-- C2 witness: at the default configuration with the list file present and
the downloader exiting with status 1, the run exits non-zero with the
remedy message. -/
theorem C2_download_failure_aborts_witness :
    (run defaultArgs envDlFail).2 ≠ 0 ∧
    Event.printMsg "ERROR: Could not download from list. Try \"sudo youtube-dl -U\"."
      ∈ (run defaultArgs envDlFail).1 := by
  have h := (C2_download_failure_aborts defaultArgs envDlFail rfl rfl).1 (by decide)
  exact ⟨h.1, h.2.1⟩

/-- C9: a run interrupted by the user after any number `k` of performed
effects exits with status zero, and its last effect is printing the
best-effort warning; nothing (no cleanup, no rollback) follows the
warning. -/
theorem C9_interrupt_exits_zero (a : Args) (env : Env) (k : Nat) :
    (run_interrupted a env k).2 = 0 ∧
    (run_interrupted a env k).1.getLast? =
      some (Event.printMsg
        "\nINTERRUPTED: Terminating. Some files may not be correctly removed.") := by
  constructor
  · rfl
  · unfold run_interrupted
    simp

/-- C10: when `--wd` is not given, the very first effect of every run —
including runs with `--nodownload` set — is the change of working directory
to `~/Downloads`, so every later path query, external invocation and file
access is resolved there. -/
theorem C10_default_chdir_first (a : Args) (env : Env) (hwd : a.wd = false) :
    (run a env).1.head? = some (Event.chdir "~/Downloads") := by
  rw [run_eq]
  obtain ⟨rest, hr⟩ := main_body_trace_shape a env
  rw [hr, hwd]
  rfl

/-- C10 witness: with `--nodownload` set and `--wd` unset, the first effect
is still the directory change to `~/Downloads`. -/
theorem C10_default_chdir_first_witness :
    (run (applyFlag defaultArgs Flag.nodownload) envNoFile).1.head? =
      some (Event.chdir "~/Downloads") :=
  C10_default_chdir_first (applyFlag defaultArgs Flag.nodownload) envNoFile rfl

lemma filter_exec_trim_one (quiet : Bool) (tmp : String) (env : Env) (f : String) :
    (trim_one quiet tmp env f).filter Event.isExec =
      [Event.execTool "sox" (sox_args1 f tmp), Event.execTool "sox" (sox_args2 f tmp)] := by
  unfold trim_one
  rw [List.filter_append]
  split
  · rfl
  · split <;> rfl

/-- C6: the trimmer operates on exactly the directory entries whose name
ends in `.mp3`, in listing order, and for each such file `f` it launches
exactly two external invocations, in this order: first
`sox f tmp reverse silence 1 0.1 0.1% reverse` (original in, shared
temporary out, reverse, strip leading silence at 0.1 s below 0.1 %
amplitude, reverse), then `sox tmp f silence 1 0.1 0.1%` (temporary in,
original out, strip leading silence at the same threshold). -/
theorem C6_trim_invocations (quiet : Bool) (env : Env) :
    (trim_mp3s quiet env).filter Event.isExec =
      (env.files.filter (fun f => ends_with f ".mp3")).flatMap (fun f =>
        [Event.execTool "sox"
           [f, env.tmpName, "reverse", "silence", "1", "0.1", "0.1%", "reverse"],
         Event.execTool "sox"
           [env.tmpName, f, "silence", "1", "0.1", "0.1%"]]) := by
  unfold trim_mp3s
  generalize env.files.filter (fun f => ends_with f ".mp3") = l
  induction l with
  | nil => rfl
  | cons f t ih =>
    rw [List.flatMap_cons, List.flatMap_cons, List.filter_append, ih,
      filter_exec_trim_one quiet env.tmpName env f]
    rfl

/-- C7: per-file reporting and isolation in the trimmer: a file on which
either sub-invocation exits non-zero gets a warning naming it; a file on
which both exit zero gets a success notice exactly when quiet mode is off;
with quiet mode on no success notice is printed for any file; and every
`.mp3` file receives both of its invocations no matter how the tool exits
on any file, so one bad file never aborts the batch. -/
theorem C7_per_file_reporting (quiet : Bool) (env : Env) (f : String)
    (hf : f ∈ env.files) (hmp3 : ends_with f ".mp3" = true) :
    ((env.soxExit1 f ≠ 0 ∨ env.soxExit2 f ≠ 0) →
      Event.printMsg ("WARNING: Failed to trim silence from " ++ f)
        ∈ trim_mp3s quiet env) ∧
    ((env.soxExit1 f = 0 ∧ env.soxExit2 f = 0 ∧ quiet = false) →
      Event.printMsg ("Silence trimmed from " ++ f) ∈ trim_mp3s quiet env) ∧
    (quiet = true →
      ∀ g, Event.printMsg ("Silence trimmed from " ++ g) ∉ trim_mp3s quiet env) ∧
    (Event.execTool "sox" (sox_args1 f env.tmpName) ∈ trim_mp3s quiet env ∧
     Event.execTool "sox" (sox_args2 f env.tmpName) ∈ trim_mp3s quiet env) := by
  refine ⟨?_, ?_, ?_, ?_, ?_⟩
  · intro hfail
    exact mem_trim_of_file quiet env f hf hmp3 _
      (warning_mem_trim_one quiet env.tmpName env f hfail)
  · intro ⟨h1, h2, hq⟩
    exact mem_trim_of_file quiet env f hf hmp3 _
      (notice_mem_trim_one quiet env.tmpName env f h1 h2 hq)
  · intro hq g hmem
    rcases trim_print_msgs quiet env _ hmem with ⟨x, hx⟩ | ⟨hq2, _⟩
    · exact append_ne_append_of_head _ _ x g 'W' 'S' (by decide) (by decide)
        (by decide) hx.symm
    · rw [hq] at hq2
      cases hq2
  · exact mem_trim_of_file quiet env f hf hmp3 _
      (exec_mem_trim_one quiet env.tmpName env f).1
  · exact mem_trim_of_file quiet env f hf hmp3 _
      (exec_mem_trim_one quiet env.tmpName env f).2

/-- C7 witness: in an environment where the first sub-invocation fails on
`bad.mp3`, the warning naming `bad.mp3` is printed, and `good.mp3`, on
which both sub-invocations succeed, gets its success notice with quiet off;
both files receive both invocations. -/
theorem C7_per_file_reporting_witness :
    Event.printMsg ("WARNING: Failed to trim silence from " ++ "bad.mp3")
      ∈ trim_mp3s false envSoxFail ∧
    Event.printMsg ("Silence trimmed from " ++ "good.mp3") ∈ trim_mp3s false envSoxFail ∧
    Event.execTool "sox" (sox_args1 "bad.mp3" "/tmp/tmp123.mp3")
      ∈ trim_mp3s false envSoxFail := by
  refine ⟨?_, ?_, ?_⟩
  · exact (C7_per_file_reporting false envSoxFail "bad.mp3" (by simp [envSoxFail])
      (by decide)).1 (Or.inl (by decide))
  · exact (C7_per_file_reporting false envSoxFail "good.mp3" (by simp [envSoxFail])
      (by decide)).2.1 ⟨by decide, by decide, rfl⟩
  · exact (C7_per_file_reporting false envSoxFail "bad.mp3" (by simp [envSoxFail])
      (by decide)).2.2.2.1

/-- C5: a file on which either `sox` sub-invocation exits non-zero is
reported in a warning naming exactly that file, and the script itself
performs no direct write to any file during trimming: every byte written
to an audio file during the trim phase is written by the external tool
invocations themselves, never by the script. -/
theorem C5_trim_failure_isolation (quiet : Bool) (env : Env) (f : String)
    (hf : f ∈ env.files) (hmp3 : ends_with f ".mp3" = true)
    (hfail : env.soxExit1 f ≠ 0 ∨ env.soxExit2 f ≠ 0) :
    Event.printMsg ("WARNING: Failed to trim silence from " ++ f) ∈ trim_mp3s quiet env ∧
    (∀ e ∈ trim_mp3s quiet env, ∀ p c, e ≠ Event.writeFile p c) ∧
    (∀ fs, applyEvents fs (trim_mp3s quiet env) = fs) :=
  ⟨mem_trim_of_file quiet env f hf hmp3 _
      (warning_mem_trim_one quiet env.tmpName env f hfail),
   trim_no_write quiet env,
   fun fs => applyEvents_no_write fs _ (trim_no_write quiet env)⟩

/-- C5 witness: with the first sub-invocation failing on `bad.mp3`, the
warning naming `bad.mp3` is printed and the file map is untouched by the
script during the trim phase. -/
theorem C5_trim_failure_isolation_witness :
    Event.printMsg ("WARNING: Failed to trim silence from " ++ "bad.mp3")
      ∈ trim_mp3s true envSoxFail ∧
    applyEvents (fun _ => some "audio-bytes") (trim_mp3s true envSoxFail) =
      (fun _ => some "audio-bytes") := by
  have h := C5_trim_failure_isolation true envSoxFail "bad.mp3" (by simp [envSoxFail])
    (by decide) (Or.inl (by decide))
  exact ⟨h.1, h.2.2 _⟩

/-- C8 counterexample: the parser rejects the command line that contains
both `--nodownload` and `--notrim`, because the source registers the two
options in a mutually exclusive argparse group. -/
theorem C8_counterexample :
    parse_args [Flag.nodownload, Flag.notrim] =
      Except.error "argument --nodownload: not allowed with argument --notrim" := by
  rfl

/-- C8 amended: `--notrim` and `--nodownload` are mutually exclusive — any
command line containing both is rejected by the argument parser with the
argparse diagnostic, so no run configuration ever has both set from the
command line. -/
theorem C8_mutually_exclusive (flags : List Flag)
    (h1 : Flag.notrim ∈ flags) (h2 : Flag.nodownload ∈ flags) :
    parse_args flags =
      Except.error "argument --nodownload: not allowed with argument --notrim" := by
  unfold parse_args
  rw [if_pos ⟨h1, h2⟩]

/-- C8 witness: the two-flag command line is rejected. -/
theorem C8_mutually_exclusive_witness :
    parse_args [Flag.notrim, Flag.nodownload] =
      Except.error "argument --nodownload: not allowed with argument --notrim" :=
  C8_mutually_exclusive [Flag.notrim, Flag.nodownload] (by simp) (by simp)

/-- Environment oracle in which the list file exists, the downloader
succeeds and the directory then holds two `.mp3` files on which every
`sox` invocation succeeds. -/
def envDlOk : Env :=
  { isfile := fun _ => true, dlExit := 0, files := ["song1.mp3", "song2.mp3"],
    tmpName := "/tmp/tmp123.mp3", soxExit1 := fun _ => 0, soxExit2 := fun _ => 0 }

/-- C3: when the downloader invocation succeeds and neither `--noclear` nor
`--nodownload` is set, after the run the content of the list file is the
empty string, and the `Download list cleared` notice is printed exactly
when `--quiet` is not set. -/
theorem C3_clear_on_success (a : Args) (env : Env)
    (hdl : a.download = true) (hcl : a.clear = true)
    (hex : env.isfile a.song_list = true) (hok : env.dlExit = 0) :
    (∀ fs, applyEvents fs (run a env).1 a.song_list = some "") ∧
    (Event.printMsg "Download list cleared" ∈ (run a env).1 ↔ a.quiet = false) := by
  rw [run_eq, main_body_dlok a env hdl hex hok, if_pos hcl]
  constructor
  · intro fs
    rw [applyEvents_append, applyEvents_append, applyEvents_append,
      applyEvents_no_write_to _ _ _
        (fun e he c => noWrites_ite a.trim _ (noWrites_trim a.quiet env) e he a.song_list c),
      applyEvents_clear_step a]
  · constructor
    · intro hmem
      by_cases hq : a.quiet = true
      · exfalso
        rcases List.mem_append.mp hmem with h | h
        · rcases List.mem_append.mp h with h | h
          · rcases List.mem_append.mp h with h | h
            · rcases List.mem_append.mp h with h | h
              · have hc := mem_chdir_events a.wd _ h
                cases hc
              · simp at h
            · simp at h
          · unfold clear_step at h
            rw [if_pos hq] at h
            simp at h
        · by_cases ht : a.trim = true
          · rw [if_pos ht] at h
            rcases trim_print_msgs a.quiet env _ h with ⟨g, hg⟩ | ⟨hq2, _⟩
            · exact warning_ne_cleared g hg.symm
            · rw [hq] at hq2
              cases hq2
          · rw [if_neg ht] at h
            cases h
      · simpa using hq
    · intro hq
      have hmem : Event.printMsg "Download list cleared" ∈ clear_step a := by
        unfold clear_step
        rw [if_neg (by simp [hq])]
        simp
      exact List.mem_append.mpr (Or.inl (List.mem_append.mpr (Or.inr hmem)))

/-- C3 witness: at the default configuration with a successful download, the
list file content afterwards is empty and the notice is printed (quiet is
off by default). -/
theorem C3_clear_on_success_witness :
    applyEvents (fun _ => some "url1\nurl2\n") (run defaultArgs envDlOk).1 "song-list.txt"
      = some "" ∧
    (Event.printMsg "Download list cleared" ∈ (run defaultArgs envDlOk).1 ↔
      defaultArgs.quiet = false) := by
  have h := C3_clear_on_success defaultArgs envDlOk rfl rfl rfl rfl
  exact ⟨h.1 _, h.2⟩

/-- C4: with `--noclear` set or `--nodownload` set, the content of the list
file after the run equals its content before the run; moreover with
`--nodownload` set no event of the run is an existence query on any file
and no event is a direct file write, so the list file is never checked,
opened or modified by the script. -/
theorem C4_list_preserved (a : Args) (env : Env)
    (h : a.clear = false ∨ a.download = false) :
    (∀ fs, applyEvents fs (run a env).1 a.song_list = fs a.song_list) ∧
    (a.download = false →
      (∀ e ∈ (run a env).1, ∀ p, e ≠ Event.checkIsFile p) ∧
      (∀ e ∈ (run a env).1, ∀ p c, e ≠ Event.writeFile p c)) := by
  have hnw := run_trace_no_write a env h
  refine ⟨fun fs => applyEvents_no_write_to fs _ _ (fun e he c => hnw e he _ c), ?_⟩
  intro hdl
  refine ⟨?_, hnw⟩
  rw [run_eq, main_body_nodl a env hdl]
  intro e he p
  rcases List.mem_append.mp he with hh | hh
  · rw [mem_chdir_events a.wd e hh]
    simp
  · by_cases ht : a.trim = true
    · rw [if_pos ht] at hh
      rcases trim_shape a.quiet env e hh with ⟨args, h1⟩ | ⟨m, h1⟩ <;> simp [h1]
    · rw [if_neg ht] at hh
      cases hh

/-- C4 witness: a `--nodownload` run in a directory with `.mp3` files (one
of them even failing to trim) leaves the list file content untouched. -/
theorem C4_list_preserved_witness :
    applyEvents (fun _ => some "url1\nurl2\n")
      (run (applyFlag defaultArgs Flag.nodownload) envSoxFail).1 "song-list.txt"
      = some "url1\nurl2\n" :=
  (C4_list_preserved (applyFlag defaultArgs Flag.nodownload) envSoxFail
    (Or.inr rfl)).1 (fun _ => some "url1\nurl2\n")

end DownloadMusic
